import Mathlib

/-!
Shallow embedding of the compatibility scoring logic of the
compatibility-matrix-api repository.

The embedded functions come from:
* `app/api/v1/endpoints/assessments.py`
  (`recalculate_compatibility_scores`, `calculate_compatibility_score`,
   `identify_strengths_and_challenges`);
* `app/api/v1/endpoints/biometrics.py`
  (`recalculate_biometric_compatibility`, `calculate_hrv_compatibility`,
   `update_overall_compatibility_scores` and its copy of
   `identify_strengths_and_challenges`);
* `app/api/v1/endpoints/compatibility.py`
  (its own `identify_strengths_and_challenges`).

Python floats are modelled as exact rationals (every literal appearing in
these functions, and every value reached in the statements below, is exactly
representable, so the rational model agrees with IEEE evaluation there).
Python `int(...)` is truncation toward zero (`pyTrunc`); Python `round` is
round-half-to-even (`pyRound`).  Database rows become Lean structures and the
per-pair body of each updater becomes a function on an optional existing
record.  String ids use Lean's lexicographic `String` order, which matches
Python's code-point comparison.
-/

namespace CompatMatrix

/-- Python `int(q)` applied to a float: truncation toward zero. -/
def pyTrunc (q : ℚ) : ℤ :=
  if q < 0 then -(Int.floor (-q)) else Int.floor q

/-- Python `round(q)` on a float: round half to even. -/
def pyRound (q : ℚ) : ℤ :=
  let f := Int.floor q
  let r := q - (f : ℚ)
  if r < 1/2 then f
  else if 1/2 < r then f + 1
  else if f % 2 = 0 then f else f + 1

/-- One answer value inside a stored `responses` array (the `value` field of
a response entry): a Python int, float, or string. -/
inductive RespValue where
  | int (n : ℤ)
  | float (q : ℚ)
  | str (s : String)
  deriving DecidableEq

/-- The guard `isinstance(user_value, type(other_value))` from
`calculate_compatibility_score`: true exactly when both values have the same
Python type. -/
def isinst : RespValue → RespValue → Bool
  | .int _, .int _ => true
  | .float _, .float _ => true
  | .str _, .str _ => true
  | _, _ => false

/-- The guard `isinstance(v, (int, float))`. -/
def isNumeric : RespValue → Bool
  | .int _ => true
  | .float _ => true
  | .str _ => false

/-- Numeric content of a response value (only read on numeric values). -/
def toQ : RespValue → ℚ
  | .int n => (n : ℚ)
  | .float q => q
  | .str _ => 0

/-- Contribution of one aligned response pair to `total_points` in
`calculate_compatibility_score` (assessments.py): a type-mismatched pair is
skipped (contributes 0), a numeric pair contributes
`max(0, 100 - (|a - b| / 4) * 100)`, an equal categorical pair contributes
100 and an unequal one contributes 0. -/
def itemPoints (a b : RespValue) : ℚ :=
  if isinst a b then
    if isNumeric a then max 0 (100 - (|toQ a - toQ b| / 4) * 100)
    else if a = b then 100 else 0
  else 0

/-- assessments.py `calculate_compatibility_score`: truncate both response
lists to the shorter length, accumulate per-item points over the aligned
pairs, set `max_points = len * 100`, return 0 when `max_points == 0` and
`int(total_points / max_points * 100)` otherwise. -/
def calculate_compatibility_score
    (user_responses other_responses : List RespValue) : ℤ :=
  let m := min user_responses.length other_responses.length
  let u := user_responses.take m
  let o := other_responses.take m
  let max_points : ℚ := (u.length : ℚ) * 100
  let total_points := (u.zip o).foldl (fun acc p => acc + itemPoints p.1 p.2) 0
  if max_points = 0 then 0
  else pyTrunc (total_points / max_points * 100)

/-- Per-item similarity as the specification claim words it: numeric pairs
score `max(0, 100 - (|a - b| / 4) * 100)`, equal values score 100, unequal
ones 0. -/
def claim_item_similarity (a b : RespValue) : ℚ :=
  if isNumeric a && isNumeric b then max 0 (100 - (|toQ a - toQ b| / 4) * 100)
  else if a = b then 100 else 0

/-- Dimension score exactly as claim C1 words it (written from the spec, for
comparison with `calculate_compatibility_score`): truncate to the shorter
length, drop kind-mismatched pairs (one numeric, one categorical) from both
numerator and denominator, and round the percentage. -/
def claim_dimension_score
    (user_responses other_responses : List RespValue) : ℤ :=
  let m := min user_responses.length other_responses.length
  let pairs := ((user_responses.take m).zip (other_responses.take m)).filter
    (fun p => isNumeric p.1 = isNumeric p.2)
  let max_total : ℚ := (pairs.length : ℚ) * 100
  let total := (pairs.map (fun p => claim_item_similarity p.1 p.2)).sum
  if max_total = 0 then 0 else pyRound (total / max_total * 100)

/-- Amended dimension-score specification: the same truncation and per-item
scoring as the code, with the percentage truncated (`int`, not `round`) and
the denominator counting every aligned pair of the truncated lists,
mismatched pairs included. -/
def amended_dimension_score
    (user_responses other_responses : List RespValue) : ℤ :=
  let m := min user_responses.length other_responses.length
  let pairs := (user_responses.take m).zip (other_responses.take m)
  let max_total : ℚ := (pairs.length : ℚ) * 100
  let total := (pairs.map (fun p => itemPoints p.1 p.2)).sum
  if max_total = 0 then 0 else pyTrunc (total / max_total * 100)

/-- A dimension score entry of a compatibility record's `dimension_scores`
array: a `dimension_id` with an integer `score`.  The display `name` the
biometric path attaches to its entry is presentational and not modelled. -/
structure DimScore where
  dimension_id : String
  score : ℤ
  deriving DecidableEq

/-- Python `sorted(dimension_scores, key=lambda d: d["score"], reverse=True)`:
a stable descending sort by score (ties keep their original order, as in
Python's stable sort). -/
def sortByScoreDesc (l : List DimScore) : List DimScore :=
  l.mergeSort (fun a b => decide (b.score ≤ a.score))

namespace Assessments

/-- assessments.py `identify_strengths_and_challenges`: sort descending by
score, walk the first three entries keeping those with score at least 70 as
strengths, then walk the first two entries of the reversed order keeping
those with score below 70 as challenges. -/
def identify_strengths_and_challenges (dimension_scores : List DimScore) :
    List DimScore × List DimScore :=
  let sorted_dimensions := sortByScoreDesc dimension_scores
  let strengths := (sorted_dimensions.take 3).foldl
    (fun acc d =>
      if 70 ≤ d.score then
        acc ++ [{ dimension_id := d.dimension_id, score := d.score }]
      else acc) []
  let reversed_dimensions := sorted_dimensions.reverse
  let challenges := (reversed_dimensions.take 2).foldl
    (fun acc d =>
      if d.score < 70 then
        acc ++ [{ dimension_id := d.dimension_id, score := d.score }]
      else acc) []
  (strengths, challenges)

end Assessments

namespace Biometrics

/-- biometrics.py carries its own copy of
`identify_strengths_and_challenges`, textually identical to the one in
assessments.py. -/
def identify_strengths_and_challenges (dimension_scores : List DimScore) :
    List DimScore × List DimScore :=
  let sorted_dimensions := sortByScoreDesc dimension_scores
  let strengths := (sorted_dimensions.take 3).foldl
    (fun acc d =>
      if 70 ≤ d.score then
        acc ++ [{ dimension_id := d.dimension_id, score := d.score }]
      else acc) []
  let reversed_dimensions := sorted_dimensions.reverse
  let challenges := (reversed_dimensions.take 2).foldl
    (fun acc d =>
      if d.score < 70 then
        acc ++ [{ dimension_id := d.dimension_id, score := d.score }]
      else acc) []
  (strengths, challenges)

end Biometrics

namespace CompatibilityEndpoint

/-- compatibility.py `identify_strengths_and_challenges`: one pass over the
scores, collecting every entry with score at least 75 as a strength and
every remaining entry with score below 50 as a challenge, with no cap on
either list.  The `name` and `description` strings attached to each output
entry are presentational and not modelled, and the `score is not None` guard
cannot fire here because every modelled entry carries a score. -/
def identify_strengths_and_challenges (dimension_scores : List DimScore) :
    List DimScore × List DimScore :=
  dimension_scores.foldl
    (fun acc d =>
      if 75 ≤ d.score then
        (acc.1 ++ [{ dimension_id := d.dimension_id, score := d.score }], acc.2)
      else if d.score < 50 then
        (acc.1, acc.2 ++ [{ dimension_id := d.dimension_id, score := d.score }])
      else acc) ([], [])

end CompatibilityEndpoint

/-- A row of the `compatibility_scores` table, restricted to the fields the
updaters read and write.  Timestamps are not modelled. -/
structure CompatRecord where
  user_id_a : String
  user_id_b : String
  overall_score : ℤ
  dimension_scores : List DimScore
  strengths : List DimScore
  challenges : List DimScore
  deriving DecidableEq

/-- Merge step of the updaters: look for the first entry whose
`dimension_id` matches the new score and overwrite it, otherwise append the
new score at the end. -/
def mergeDimScore : List DimScore → DimScore → List DimScore
  | [], d => [d]
  | x :: xs, d =>
    if x.dimension_id = d.dimension_id then d :: xs
    else x :: mergeDimScore xs d

/-- Python `int(sum(scores) / len(scores))` over the scores of a record:
exact division on rationals truncated toward zero.  On the empty list the
Python expression raises `ZeroDivisionError`, modelled as `none`. -/
def aggregated_overall (ds : List DimScore) : Option ℤ :=
  if ds.isEmpty then none
  else some (pyTrunc (((ds.map DimScore.score).sum : ℚ) / (ds.length : ℚ)))

/-- Aggregated overall exactly as claim C3 words it (written from the spec,
for comparison with `aggregated_overall`): 0 for the empty set of dimension
scores, otherwise the rounded mean of the present scores. -/
def claim_overall (ds : List DimScore) : ℤ :=
  if ds.isEmpty then 0
  else pyRound (((ds.map DimScore.score).sum : ℚ) / (ds.length : ℚ))

namespace Assessments

/-- Per-pair body of assessments.py `recalculate_compatibility_scores`:
given the optionally existing compatibility record for the canonical pair
and the freshly computed dimension score, the row written back.  An existing
record gets the score merged in, its overall score recomputed as the
truncated mean and its strengths and challenges reclassified; a missing
record is created with the single dimension score, that score as overall,
and empty strengths and challenges. -/
def updatePairRecord (existing : Option CompatRecord)
    (user_id_a user_id_b : String) (d : DimScore) : CompatRecord :=
  match existing with
  | some current_record =>
      let dimension_scores := mergeDimScore current_record.dimension_scores d
      let overall_score :=
        pyTrunc (((dimension_scores.map DimScore.score).sum : ℚ)
          / (dimension_scores.length : ℚ))
      let sc := identify_strengths_and_challenges dimension_scores
      { user_id_a := current_record.user_id_a
        user_id_b := current_record.user_id_b
        overall_score := overall_score
        dimension_scores := dimension_scores
        strengths := sc.1
        challenges := sc.2 }
  | none =>
      { user_id_a := user_id_a
        user_id_b := user_id_b
        overall_score := d.score
        dimension_scores := [d]
        strengths := []
        challenges := [] }

end Assessments

namespace Biometrics

/-- The fixed id of the physiological-compatibility dimension used by
biometrics.py `update_overall_compatibility_scores`. -/
def physiologicalDimensionId : String := "9fdf8cff-974b-4ffe-913d-5e0eb0dc48c9"

/-- Record created by biometrics.py `update_overall_compatibility_scores`
when no compatibility row exists for the pair yet: the biometric score
becomes the overall score and the single dimension score, strengths are
populated exactly when the score is at least 70 and challenges exactly when
it is below 50. -/
def createRecordFromBiometric (user_id_a user_id_b : String)
    (compatibility_score : ℤ) : CompatRecord :=
  { user_id_a := user_id_a
    user_id_b := user_id_b
    overall_score := compatibility_score
    dimension_scores := [⟨physiologicalDimensionId, compatibility_score⟩]
    strengths :=
      if 70 ≤ compatibility_score
      then [⟨physiologicalDimensionId, compatibility_score⟩] else []
    challenges :=
      if compatibility_score < 50
      then [⟨physiologicalDimensionId, compatibility_score⟩] else [] }

end Biometrics

/-- Pair normalisation as written in assessments.py
`recalculate_compatibility_scores` and biometrics.py
`recalculate_biometric_compatibility`: the lexicographically smaller user id
becomes `user_id_a`. -/
def canonicalPair (user_id other_user_id : String) : String × String :=
  if user_id < other_user_id then (user_id, other_user_id)
  else (other_user_id, user_id)

/-- Pair normalisation as written in biometrics.py
`update_overall_compatibility_scores`, spelled with `min` and `max`. -/
def minMaxPair (user_id other_user_id : String) : String × String :=
  (min user_id other_user_id, max user_id other_user_id)

/-- An HRV measurement value (the `measurement_value` JSON object), with the
three fields `calculate_hrv_compatibility` reads: `sdnn`, the LF/HF balance
`lf_hf`, and `hrv_score`, modelled as exact rationals.  The Python `.get`
defaults never fire here because every modelled measurement carries all
three fields. -/
structure HRVMeasurement where
  sdnn : ℚ
  lf_hf : ℚ
  hrv_score : ℚ
  deriving DecidableEq

/-- biometrics.py `calculate_hrv_compatibility`: the final weighted score.
The textual `details` breakdown also returned there is presentational and
not modelled.  Float literals become the equal rationals. -/
def calculate_hrv_compatibility (user1_hrv user2_hrv : HRVMeasurement) : ℤ :=
  let user1_sdnn := user1_hrv.sdnn
  let user2_sdnn := user2_hrv.sdnn
  let user1_lf_hf := user1_hrv.lf_hf
  let user2_lf_hf := user2_hrv.lf_hf
  let user1_score := user1_hrv.hrv_score
  let user2_score := user2_hrv.hrv_score
  let max_sdnn := max user1_sdnn user2_sdnn
  let min_sdnn := min user1_sdnn user2_sdnn
  let sdnn_quotient := if 0 < max_sdnn then min_sdnn / max_sdnn else 0
  let sdnn_score :=
    if 50 ≤ min_sdnn then 100 * sdnn_quotient
    else
      let sdnn_diff := |user1_sdnn - user2_sdnn|
      if 15 ≤ sdnn_diff ∧ sdnn_diff ≤ 40 then 90
      else max 50 (100 - |sdnn_diff - 25| * (3/2))
  let lf_hf_diff := |user1_lf_hf - user2_lf_hf|
  let lf_hf_score :=
    if 1/2 ≤ lf_hf_diff ∧ lf_hf_diff ≤ 1 then 100
    else max 50 (100 - |lf_hf_diff - 3/4| * 40)
  let hrv_score_diff := |user1_score - user2_score|
  let hrv_score_comp :=
    if 80 ≤ max user1_score user2_score then 90
    else if hrv_score_diff ≤ 15 then 100
    else max 50 (100 - (hrv_score_diff - 15) * 2)
  pyTrunc (sdnn_score * (2/5) + lf_hf_score * (2/5) + hrv_score_comp * (1/5))

/-- assessments.py `recalculate_compatibility_scores` wraps its entire body
in `try/except Exception`, logging and swallowing anything raised, so the
call always returns normally: either with the state the body produced or,
after an exception, with the state unchanged. -/
def recalculate_compatibility_scores_guarded {σ : Type}
    (body : σ → Except String σ) (s : σ) : Except String σ :=
  match body s with
  | .ok s2 => .ok s2
  | .error _ => .ok s

/-- biometrics.py `recalculate_biometric_compatibility` has the same
try/except-everything shape around its whole body. -/
def recalculate_biometric_compatibility_guarded {σ : Type}
    (body : σ → Except String σ) (s : σ) : Except String σ :=
  match body s with
  | .ok s2 => .ok s2
  | .error _ => .ok s

/-- The submit-response endpoint saves the response (the primary write) and
then invokes the guarded updater on the resulting state. -/
def primaryThenUpdate {σ : Type} (primary : σ → σ)
    (body : σ → Except String σ) (s : σ) : Except String σ :=
  recalculate_compatibility_scores_guarded body (primary s)

/-! Helper lemmas. -/

theorem foldl_add_itemPoints (l : List (RespValue × RespValue)) (acc : ℚ) :
    l.foldl (fun a p => a + itemPoints p.1 p.2) acc
      = acc + (l.map (fun p => itemPoints p.1 p.2)).sum := by
  induction l generalizing acc with
  | nil => simp
  | cons x xs ih => simp [List.foldl_cons, ih, add_assoc]

theorem calculate_compatibility_score_eq_amended
    (u o : List RespValue) :
    calculate_compatibility_score u o = amended_dimension_score u o := by
  have hlz : ((u.take (min u.length o.length)).zip
      (o.take (min u.length o.length))).length
        = (u.take (min u.length o.length)).length := by
    simp [List.length_zip, Nat.min_comm u.length o.length]
  simp only [calculate_compatibility_score, amended_dimension_score,
    foldl_add_itemPoints, hlz, zero_add]

theorem strengths_foldl_eq (l acc : List DimScore) :
    l.foldl
      (fun acc d =>
        if 70 ≤ d.score then
          acc ++ [{ dimension_id := d.dimension_id, score := d.score }]
        else acc) acc
      = acc ++ l.filter (fun d => 70 ≤ d.score) := by
  induction l generalizing acc with
  | nil => simp
  | cons x xs ih =>
    by_cases h : 70 ≤ x.score <;>
      simp [h, ih, List.filter_cons]

theorem challenges_foldl_eq (l acc : List DimScore) :
    l.foldl
      (fun acc d =>
        if d.score < 70 then
          acc ++ [{ dimension_id := d.dimension_id, score := d.score }]
        else acc) acc
      = acc ++ l.filter (fun d => d.score < 70) := by
  induction l generalizing acc with
  | nil => simp
  | cons x xs ih =>
    by_cases h : x.score < 70 <;>
      simp [h, ih, List.filter_cons]

theorem compat_foldl_eq (l : List DimScore) (acc : List DimScore × List DimScore) :
    l.foldl
      (fun acc d =>
        if 75 ≤ d.score then
          (acc.1 ++ [{ dimension_id := d.dimension_id, score := d.score }], acc.2)
        else if d.score < 50 then
          (acc.1, acc.2 ++ [{ dimension_id := d.dimension_id, score := d.score }])
        else acc) acc
      = (acc.1 ++ l.filter (fun d => 75 ≤ d.score),
         acc.2 ++ l.filter (fun d => d.score < 50)) := by
  induction l generalizing acc with
  | nil => simp
  | cons x xs ih =>
    rcases acc with ⟨a1, a2⟩
    by_cases h1 : 75 ≤ x.score
    · have h2 : ¬ x.score < 50 := by omega
      simp [h1, h2, ih, List.filter_cons]
    · by_cases h2 : x.score < 50 <;>
        simp [h1, h2, ih, List.filter_cons]

theorem assess_identify_eq (ds : List DimScore) :
    Assessments.identify_strengths_and_challenges ds
      = (((sortByScoreDesc ds).take 3).filter (fun d => 70 ≤ d.score),
         (((sortByScoreDesc ds).reverse).take 2).filter (fun d => d.score < 70)) := by
  simp only [Assessments.identify_strengths_and_challenges,
    strengths_foldl_eq, challenges_foldl_eq, List.nil_append]

theorem bio_identify_eq (ds : List DimScore) :
    Biometrics.identify_strengths_and_challenges ds
      = Assessments.identify_strengths_and_challenges ds := rfl

theorem compat_identify_eq (ds : List DimScore) :
    CompatibilityEndpoint.identify_strengths_and_challenges ds
      = (ds.filter (fun d => 75 ≤ d.score), ds.filter (fun d => d.score < 50)) := by
  simp only [CompatibilityEndpoint.identify_strengths_and_challenges,
    compat_foldl_eq, List.nil_append]

theorem mem_sortByScoreDesc {d : DimScore} {l : List DimScore} :
    d ∈ sortByScoreDesc l ↔ d ∈ l :=
  (List.mergeSort_perm l _).mem_iff

theorem abs_three_quarters : |(3 : ℚ)/4| = 3/4 :=
  abs_of_nonneg (by norm_num)

theorem abs_neg_three_quarters : |(-(3/4) : ℚ)| = 3/4 := by
  rw [abs_neg]; exact abs_three_quarters

theorem abs_zero_sub_three_quarters : |(0 : ℚ) - 3/4| = 3/4 := by
  rw [zero_sub]; exact abs_neg_three_quarters

theorem mergeDimScore_idem (l : List DimScore) (d : DimScore) :
    mergeDimScore (mergeDimScore l d) d = mergeDimScore l d := by
  induction l with
  | nil => simp [mergeDimScore]
  | cons x xs ih =>
    by_cases h : x.dimension_id = d.dimension_id
    · simp [mergeDimScore, h]
    · simp [mergeDimScore, h, ih]

theorem mem_map_mergeDimScore {y : String} (xs : List DimScore) (d : DimScore)
    (h : y ∈ (mergeDimScore xs d).map DimScore.dimension_id) :
    y ∈ xs.map DimScore.dimension_id ∨ y = d.dimension_id := by
  induction xs with
  | nil => simpa [mergeDimScore] using h
  | cons x l ih =>
    by_cases hx : x.dimension_id = d.dimension_id
    · simp only [mergeDimScore, if_pos hx, List.map_cons, List.mem_cons] at h
      rcases h with h | h
      · exact Or.inr h
      · exact Or.inl (by simp [h])
    · simp only [mergeDimScore, if_neg hx, List.map_cons, List.mem_cons] at h
      rcases h with h | h
      · exact Or.inl (by simp [h])
      · rcases ih h with h2 | h2
        · exact Or.inl (by simp [h2])
        · exact Or.inr h2

theorem mergeDimScore_nodup (l : List DimScore) (d : DimScore)
    (h : (l.map DimScore.dimension_id).Nodup) :
    ((mergeDimScore l d).map DimScore.dimension_id).Nodup := by
  induction l with
  | nil => simp [mergeDimScore]
  | cons x xs ih =>
    simp only [List.map_cons, List.nodup_cons] at h
    by_cases hx : x.dimension_id = d.dimension_id
    · simp only [mergeDimScore, if_pos hx, List.map_cons, List.nodup_cons]
      exact ⟨hx ▸ h.1, h.2⟩
    · simp only [mergeDimScore, if_neg hx, List.map_cons, List.nodup_cons]
      refine ⟨fun hmem => ?_, ih h.2⟩
      rcases mem_map_mergeDimScore xs d hmem with h2 | h2
      · exact h.1 h2
      · exact hx h2

/-! Claim theorems. -/

/-- C1 (counterexample): the claimed dimension-score formula disagrees with
the code.  On responses `[3, 4, 5]` vs `[3, 5, 5]` the code yields 91 (the
percentage is truncated by `int`, not rounded) while the claimed formula
yields 92; and on a pair with one kind-mismatched item the code yields 50
(the mismatched item still counts in the denominator) while the claimed
formula, which excludes it from the denominator, yields 100. -/
theorem calculate_compatibility_score_claim_counterexample :
    calculate_compatibility_score
        [.int 3, .int 4, .int 5] [.int 3, .int 5, .int 5] = 91
    ∧ claim_dimension_score
        [.int 3, .int 4, .int 5] [.int 3, .int 5, .int 5] = 92
    ∧ calculate_compatibility_score [.int 3, .int 3] [.int 3, .str "x"] = 50
    ∧ claim_dimension_score [.int 3, .int 3] [.int 3, .str "x"] = 100 := by
  refine ⟨?_, ?_, ?_, ?_⟩ <;>
    norm_num [calculate_compatibility_score, claim_dimension_score, itemPoints,
      claim_item_similarity, isinst, isNumeric, toQ, pyTrunc, pyRound,
      List.zip, List.filter]

/-- C1 (amended): the dimension score of two completed response sequences is
the truncated percentage `int(total / max_total * 100)` where both sequences
are first cut to the shorter length, `total` sums the per-item similarities,
kind-mismatched items contribute 0 to `total` but still count in
`max_total = truncated_length * 100`, and the result is 0 when
`max_total == 0`; responses `[3, 4, 5]` vs `[3, 5, 5]` yield 91. -/
theorem calculate_compatibility_score_spec :
    (∀ u o : List RespValue,
      calculate_compatibility_score u o = amended_dimension_score u o)
    ∧ calculate_compatibility_score
        [.int 3, .int 4, .int 5] [.int 3, .int 5, .int 5] = 91 := by
  refine ⟨calculate_compatibility_score_eq_amended, ?_⟩
  norm_num [calculate_compatibility_score, itemPoints, isinst, isNumeric, toQ,
    pyTrunc, List.zip]

/-- C3 (counterexample): the aggregated overall score truncates the mean
rather than rounding it: on scores `{80, 63}` (mean 71.5) the code yields 71
while the claimed rounded mean yields 72; and on the empty set the code
divides by zero (no value) instead of returning 0. -/
theorem aggregated_overall_claim_counterexample :
    aggregated_overall [⟨"d1", 80⟩, ⟨"d2", 63⟩] = some 71
    ∧ claim_overall [⟨"d1", 80⟩, ⟨"d2", 63⟩] = 72
    ∧ aggregated_overall [] = none := by
  refine ⟨?_, ?_, rfl⟩ <;>
    norm_num [aggregated_overall, claim_overall, pyTrunc, pyRound]

/-- C3 (amended): for a nonempty set of dimension scores the aggregated
overall equals the truncated mean `int(sum / len)` over the present scores
(missing scores excluded, not counted as zero); scores `{80, 60}` yield 70;
on the empty set the Python expression raises `ZeroDivisionError` rather
than returning 0. -/
theorem aggregated_overall_spec :
    (∀ ds : List DimScore, ds ≠ [] →
      aggregated_overall ds
        = some (pyTrunc (((ds.map DimScore.score).sum : ℚ) / (ds.length : ℚ))))
    ∧ aggregated_overall [⟨"d1", 80⟩, ⟨"d2", 60⟩] = some 70
    ∧ aggregated_overall [] = none := by
  refine ⟨fun ds hds => ?_, ?_, rfl⟩
  · simp [aggregated_overall, hds]
  · norm_num [aggregated_overall, pyTrunc]

/-- Witness for C3: the amended aggregation evaluated on the singleton
`[("d1", 80)]`. -/
theorem aggregated_overall_spec_witness :
    ([⟨"d1", 80⟩] : List DimScore) ≠ []
    ∧ aggregated_overall [⟨"d1", 80⟩]
        = some (pyTrunc
            (((([⟨"d1", 80⟩] : List DimScore).map DimScore.score).sum : ℚ)
              / (([⟨"d1", 80⟩] : List DimScore).length : ℚ))) :=
  ⟨by simp, aggregated_overall_spec.1 [⟨"d1", 80⟩] (by simp)⟩

/-- C4 (counterexample): the classification is not uniform across code
paths: on the single entry `("A", 60)` the assessments classifier returns it
as a challenge (bottom 2 with score < 70) while the compatibility endpoint
classifier returns no challenge at all (its challenge threshold is 50). -/
theorem identify_strengths_and_challenges_counterexample :
    Assessments.identify_strengths_and_challenges [⟨"A", 60⟩]
        = ([], [⟨"A", 60⟩])
    ∧ CompatibilityEndpoint.identify_strengths_and_challenges [⟨"A", 60⟩]
        = ([], []) := by
  constructor
  · simp [assess_identify_eq, sortByScoreDesc, List.mergeSort_singleton,
      List.filter]
  · simp [compat_identify_eq, List.filter]

/-- C4 (amended): the assessments classifier (and the identical copy in
biometrics.py) returns as strengths exactly the top 3 dimensions of the
descending sort with score at least 70 and as challenges exactly the bottom
2 with score below 70; the compatibility endpoint classifier instead returns
every dimension with score at least 75 as a strength and every dimension
with score below 50 as a challenge, with no cap, so the classification
differs between code paths. -/
theorem identify_strengths_and_challenges_spec :
    (∀ ds, Assessments.identify_strengths_and_challenges ds
      = (((sortByScoreDesc ds).take 3).filter (fun d => 70 ≤ d.score),
         (((sortByScoreDesc ds).reverse).take 2).filter (fun d => d.score < 70)))
    ∧ (∀ ds, Biometrics.identify_strengths_and_challenges ds
        = Assessments.identify_strengths_and_challenges ds)
    ∧ (∀ ds, CompatibilityEndpoint.identify_strengths_and_challenges ds
        = (ds.filter (fun d => 75 ≤ d.score),
           ds.filter (fun d => d.score < 50))) :=
  ⟨assess_identify_eq, bio_identify_eq, compat_identify_eq⟩

/-- C5 (counterexample): an int and a float are both numeric, hence the
same kind in the claim's sense, and the claimed same-kind formula gives 100
at equal values; but the code's `isinstance(user_value, type(other_value))`
guard sees two different Python types and skips the pair, scoring 0. -/
theorem itemPoints_same_kind_counterexample :
    isNumeric (RespValue.int 3) = true
    ∧ isNumeric (RespValue.float 3) = true
    ∧ claim_item_similarity (RespValue.int 3) (RespValue.float 3) = 100
    ∧ itemPoints (RespValue.int 3) (RespValue.float 3) = 0 := by
  refine ⟨rfl, rfl, ?_, rfl⟩
  norm_num [claim_item_similarity, isNumeric, toQ]

/-- C5 (amended): the per-item comparison applies only when both values have
the same Python type (`isinstance(a, type(b))`), which is stricter than the
same numeric-vs-categorical kind: a pair of differing types — an int against
a float included — is skipped and contributes 0.  For same-type pairs,
numeric pairs score `max(0, 100 - (|a - b| / 4) * 100)`, equal categorical
pairs score 100 and unequal categorical pairs score 0; hence every value
compared with itself scores 100. -/
theorem itemPoints_spec :
    (∀ a b : RespValue, isinst a b →
      (isNumeric a →
        itemPoints a b = max 0 (100 - (|toQ a - toQ b| / 4) * 100))
      ∧ (isNumeric a = false → a = b → itemPoints a b = 100)
      ∧ (isNumeric a = false → a ≠ b → itemPoints a b = 0))
    ∧ (∀ a b : RespValue, isinst a b = false → itemPoints a b = 0)
    ∧ (∀ v : RespValue, itemPoints v v = 100) := by
  refine ⟨?_, fun a b hab => by simp [itemPoints, hab], ?_⟩
  · intro a b hab
    refine ⟨fun hnum => ?_, fun hnum heq => ?_, fun hnum hne => ?_⟩
    · simp [itemPoints, hab, hnum]
    · subst heq; simp [itemPoints, hab, hnum]
    · simp [itemPoints, hab, hnum, hne]
  · intro v
    cases v with
    | int n => norm_num [itemPoints, isinst, isNumeric, toQ]
    | float q => norm_num [itemPoints, isinst, isNumeric, toQ]
    | str s => simp [itemPoints, isinst, isNumeric]

/-- Witness for C5: the per-item comparison evaluated on the same-kind pair
`(3, 5)`. -/
theorem itemPoints_spec_witness :
    isinst (RespValue.int 3) (RespValue.int 5) = true
    ∧ ((isNumeric (RespValue.int 3) →
        itemPoints (RespValue.int 3) (RespValue.int 5)
          = max 0 (100 - (|toQ (RespValue.int 3) - toQ (RespValue.int 5)| / 4)
              * 100))
      ∧ (isNumeric (RespValue.int 3) = false →
          RespValue.int 3 = RespValue.int 5 →
            itemPoints (RespValue.int 3) (RespValue.int 5) = 100)
      ∧ (isNumeric (RespValue.int 3) = false →
          RespValue.int 3 ≠ RespValue.int 5 →
            itemPoints (RespValue.int 3) (RespValue.int 5) = 0)) :=
  ⟨rfl, itemPoints_spec.1 (RespValue.int 3) (RespValue.int 5) rfl⟩

/-- C9: every exception raised inside either pairwise-record updater is
caught and swallowed rather than propagated: whatever the updater body does
(returns or raises), the guarded call returns normally, so the primary write
that triggered it never fails because of the updater. -/
theorem updater_swallows_exceptions {σ : Type}
    (body : σ → Except String σ) (s : σ) :
    (∃ s2, recalculate_compatibility_scores_guarded body s = Except.ok s2)
    ∧ (∃ s2, recalculate_biometric_compatibility_guarded body s = Except.ok s2)
    ∧ (∀ primary : σ → σ,
        ∃ s2, primaryThenUpdate primary body s = Except.ok s2) := by
  refine ⟨?_, ?_, fun primary => ?_⟩
  · cases h : body s with
    | ok s2 => exact ⟨s2, by simp [recalculate_compatibility_scores_guarded, h]⟩
    | error e => exact ⟨s, by simp [recalculate_compatibility_scores_guarded, h]⟩
  · cases h : body s with
    | ok s2 => exact ⟨s2, by simp [recalculate_biometric_compatibility_guarded, h]⟩
    | error e => exact ⟨s, by simp [recalculate_biometric_compatibility_guarded, h]⟩
  · cases h : body (primary s) with
    | ok s2 =>
        exact ⟨s2, by
          simp [primaryThenUpdate, recalculate_compatibility_scores_guarded, h]⟩
    | error e =>
        exact ⟨primary s, by
          simp [primaryThenUpdate, recalculate_compatibility_scores_guarded, h]⟩

/-- C10: a record created by the assessment-completion path always has empty
strengths and challenges, whatever its single dimension score is (even 80),
whereas the biometric path's record creation populates strengths exactly
when the score is at least 70 and challenges exactly when it is below 50. -/
theorem create_record_strengths_contrast :
    (∀ (a b : String) (d : DimScore),
      (Assessments.updatePairRecord none a b d).strengths = []
      ∧ (Assessments.updatePairRecord none a b d).challenges = [])
    ∧ (∀ (a b : String) (s : ℤ),
      (Biometrics.createRecordFromBiometric a b s).strengths
        = (if 70 ≤ s then [⟨Biometrics.physiologicalDimensionId, s⟩] else [])
      ∧ (Biometrics.createRecordFromBiometric a b s).challenges
        = (if s < 50 then [⟨Biometrics.physiologicalDimensionId, s⟩] else []))
    ∧ (Assessments.updatePairRecord none "u1" "u2" ⟨"D", 80⟩).strengths = []
    ∧ (Biometrics.createRecordFromBiometric "u1" "u2" 80).strengths
        = [⟨Biometrics.physiologicalDimensionId, 80⟩] := by
  refine ⟨fun a b d => ⟨rfl, rfl⟩, fun a b s => ⟨rfl, rfl⟩, rfl, ?_⟩
  norm_num [Biometrics.createRecordFromBiometric]

/-- C2 (counterexample): an identical good HRV measurement (sdnn 60, LF/HF
balance 1, hrv score 70) self-compares to 88, not 100: the LF/HF sub-score
of an identical pair is 70 because the code rewards complementarity (a
difference of 0.75 is ideal), and the weighted combination is truncated by
`int`, not rounded. -/
theorem calculate_hrv_compatibility_claim_counterexample :
    (50 : ℚ) ≤ (HRVMeasurement.mk 60 1 70).sdnn
    ∧ calculate_hrv_compatibility ⟨60, 1, 70⟩ ⟨60, 1, 70⟩ = 88
    ∧ (88 : ℤ) ≠ 100 := by
  refine ⟨by norm_num, ?_, by norm_num⟩
  norm_num [calculate_hrv_compatibility, pyTrunc, max_def, abs_three_quarters,
    abs_neg_three_quarters, abs_zero_sub_three_quarters]

/-- C2 (amended): for every HRV measurement `m` with `sdnn ≥ 50`, the
self-comparison `compare(m, m)` gives sdnn sub-score 100 and LF/HF sub-score
70 (identical measurements are not complementary), so the truncated weighted
score `int(0.4 * sdnn + 0.4 * lf_hf + 0.2 * similarity)` is 86 when
`hrv_score ≥ 80` (the excellent-HRV branch fixes the similarity sub-score at
90) and 88 otherwise — never 100. -/
theorem calculate_hrv_compatibility_self (m : HRVMeasurement)
    (h : 50 ≤ m.sdnn) :
    calculate_hrv_compatibility m m
      = if 80 ≤ m.hrv_score then 86 else 88 := by
  have h0 : (0 : ℚ) < m.sdnn := lt_of_lt_of_le (by norm_num) h
  unfold calculate_hrv_compatibility
  simp only [max_self, min_self, sub_self, abs_zero]
  rw [if_pos h0, if_pos h, div_self (ne_of_gt h0)]
  by_cases h80 : 80 ≤ m.hrv_score
  · rw [if_pos h80, if_pos h80]
    norm_num [pyTrunc, max_def, abs_three_quarters, abs_neg_three_quarters,
      abs_zero_sub_three_quarters]
  · rw [if_neg h80, if_neg h80]
    norm_num [pyTrunc, max_def, abs_three_quarters, abs_neg_three_quarters,
      abs_zero_sub_three_quarters]

/-- Witness for C2: the amended self-comparison evaluated at the measurement
(sdnn 60, LF/HF balance 1, hrv score 70). -/
theorem calculate_hrv_compatibility_self_witness :
    (50 : ℚ) ≤ (HRVMeasurement.mk 60 1 70).sdnn
    ∧ calculate_hrv_compatibility ⟨60, 1, 70⟩ ⟨60, 1, 70⟩
        = if 80 ≤ (HRVMeasurement.mk 60 1 70).hrv_score then 86 else 88 :=
  ⟨by norm_num, calculate_hrv_compatibility_self ⟨60, 1, 70⟩ (by norm_num)⟩

/-- C6: for distinct user ids the canonical pair key puts the
lexicographically smaller id first: it is commutative, agrees with the
min/max spelling used by the biometric overall updater, satisfies
`key_a < key_b`, and every record written by the per-pair updater (creation,
or update of a record satisfying the invariant) satisfies
`user_id_a < user_id_b`. -/
theorem canonicalPair_spec (x y : String) (h : x ≠ y) :
    canonicalPair x y = canonicalPair y x
    ∧ canonicalPair x y = minMaxPair x y
    ∧ (canonicalPair x y).1 < (canonicalPair x y).2
    ∧ (∀ d : DimScore,
        (Assessments.updatePairRecord none (canonicalPair x y).1
            (canonicalPair x y).2 d).user_id_a
          < (Assessments.updatePairRecord none (canonicalPair x y).1
              (canonicalPair x y).2 d).user_id_b)
    ∧ (∀ (r : CompatRecord) (d : DimScore), r.user_id_a < r.user_id_b →
        (Assessments.updatePairRecord (some r) (canonicalPair x y).1
            (canonicalPair x y).2 d).user_id_a
          < (Assessments.updatePairRecord (some r) (canonicalPair x y).1
              (canonicalPair x y).2 d).user_id_b) := by
  have key : canonicalPair x y = canonicalPair y x
      ∧ canonicalPair x y = minMaxPair x y
      ∧ (canonicalPair x y).1 < (canonicalPair x y).2 := by
    rcases lt_or_gt_of_ne h with hlt | hgt
    · refine ⟨?_, ?_, ?_⟩
      · rw [canonicalPair, canonicalPair, if_pos hlt, if_neg (asymm hlt)]
      · rw [canonicalPair, minMaxPair, if_pos hlt,
          min_eq_left hlt.le, max_eq_right hlt.le]
      · rw [canonicalPair, if_pos hlt]; exact hlt
    · refine ⟨?_, ?_, ?_⟩
      · rw [canonicalPair, canonicalPair, if_neg (asymm hgt), if_pos hgt]
      · rw [canonicalPair, minMaxPair, if_neg (asymm hgt),
          min_eq_right hgt.le, max_eq_left hgt.le]
      · rw [canonicalPair, if_neg (asymm hgt)]; exact hgt
  exact ⟨key.1, key.2.1, key.2.2, fun d => key.2.2, fun r d hr => hr⟩

/-- Witness for C6: the canonical pair key evaluated on the distinct ids
"userA" and "userB". -/
theorem canonicalPair_spec_witness :
    ("userA" : String) ≠ "userB"
    ∧ (canonicalPair "userA" "userB" = canonicalPair "userB" "userA"
      ∧ canonicalPair "userA" "userB" = minMaxPair "userA" "userB"
      ∧ (canonicalPair "userA" "userB").1 < (canonicalPair "userA" "userB").2
      ∧ (∀ d : DimScore,
          (Assessments.updatePairRecord none (canonicalPair "userA" "userB").1
              (canonicalPair "userA" "userB").2 d).user_id_a
            < (Assessments.updatePairRecord none
                (canonicalPair "userA" "userB").1
                (canonicalPair "userA" "userB").2 d).user_id_b)
      ∧ (∀ (r : CompatRecord) (d : DimScore), r.user_id_a < r.user_id_b →
          (Assessments.updatePairRecord (some r)
              (canonicalPair "userA" "userB").1
              (canonicalPair "userA" "userB").2 d).user_id_a
            < (Assessments.updatePairRecord (some r)
                (canonicalPair "userA" "userB").1
                (canonicalPair "userA" "userB").2 d).user_id_b)) :=
  ⟨by decide, canonicalPair_spec "userA" "userB" (by decide)⟩

/-- C7 (counterexample): processing the same dimension-completed event twice
is not idempotent at the record level: the first processing creates the
record with empty strengths and challenges, while the second recomputes them
from the merged dimension scores, so with score 80 the strengths list
changes from empty to nonempty and the records differ. -/
theorem updatePairRecord_reprocess_counterexample :
    Assessments.updatePairRecord
        (some (Assessments.updatePairRecord none "a" "b" ⟨"D", 80⟩))
        "a" "b" ⟨"D", 80⟩
      ≠ Assessments.updatePairRecord none "a" "b" ⟨"D", 80⟩ := by
  intro hcontra
  have h2 := congrArg CompatRecord.strengths hcontra
  simp [Assessments.updatePairRecord, mergeDimScore,
    Assessments.identify_strengths_and_challenges, sortByScoreDesc,
    List.mergeSort_singleton] at h2

/-- C7 (amended): the per-dimension merge is replace-if-present-by-id, so
dimension scores stay unique by `dimension_id` and re-applying the same
update to an already-updated existing record yields the same record; but the
full event is not idempotent when the first processing created the record,
because the create path leaves strengths and challenges empty and a second
processing fills them in. -/
theorem updatePairRecord_merge_spec :
    (∀ (r : CompatRecord) (a b : String) (d : DimScore),
      Assessments.updatePairRecord
          (some (Assessments.updatePairRecord (some r) a b d)) a b d
        = Assessments.updatePairRecord (some r) a b d)
    ∧ (∀ (l : List DimScore) (d : DimScore),
        (l.map DimScore.dimension_id).Nodup →
          ((mergeDimScore l d).map DimScore.dimension_id).Nodup)
    ∧ (∀ (l : List DimScore) (d : DimScore),
        mergeDimScore (mergeDimScore l d) d = mergeDimScore l d) := by
  refine ⟨fun r a b d => ?_, mergeDimScore_nodup, mergeDimScore_idem⟩
  simp [Assessments.updatePairRecord, mergeDimScore_idem]

/-- Witness for C7: merging a fresh dimension into the unique-by-id
singleton keeps uniqueness. -/
theorem updatePairRecord_merge_spec_witness :
    (([⟨"d1", 80⟩] : List DimScore).map DimScore.dimension_id).Nodup
    ∧ ((mergeDimScore [⟨"d1", 80⟩] ⟨"d2", 70⟩).map
        DimScore.dimension_id).Nodup :=
  ⟨by decide,
    updatePairRecord_merge_spec.2.1 [⟨"d1", 80⟩] ⟨"d2", 70⟩ (by decide)⟩

/-- C8: on any list of dimension scores whose dimension ids are pairwise
distinct (as the merge step maintains), no classifier places the same
`dimension_id` in both the strengths and the challenges list. -/
theorem classification_no_overlap (ds : List DimScore)
    (h : (ds.map DimScore.dimension_id).Nodup) :
    (∀ a ∈ (Assessments.identify_strengths_and_challenges ds).1,
      ∀ b ∈ (Assessments.identify_strengths_and_challenges ds).2,
        a.dimension_id ≠ b.dimension_id)
    ∧ (∀ a ∈ (Biometrics.identify_strengths_and_challenges ds).1,
      ∀ b ∈ (Biometrics.identify_strengths_and_challenges ds).2,
        a.dimension_id ≠ b.dimension_id)
    ∧ (∀ a ∈ (CompatibilityEndpoint.identify_strengths_and_challenges ds).1,
      ∀ b ∈ (CompatibilityEndpoint.identify_strengths_and_challenges ds).2,
        a.dimension_id ≠ b.dimension_id) := by
  have hassess :
      ∀ a ∈ (Assessments.identify_strengths_and_challenges ds).1,
      ∀ b ∈ (Assessments.identify_strengths_and_challenges ds).2,
        a.dimension_id ≠ b.dimension_id := by
    intro a ha b hb heq
    rw [assess_identify_eq] at ha hb
    simp only [List.mem_filter] at ha hb
    have ha2 : a ∈ ds := mem_sortByScoreDesc.1 (List.mem_of_mem_take ha.1)
    have hb2 : b ∈ ds := mem_sortByScoreDesc.1
      (List.mem_reverse.1 (List.mem_of_mem_take hb.1))
    have hab : a = b := List.inj_on_of_nodup_map h ha2 hb2 heq
    have hsa : 70 ≤ a.score := by simpa using ha.2
    have hsb : b.score < 70 := by simpa using hb.2
    rw [hab] at hsa
    omega
  refine ⟨hassess, ?_, ?_⟩
  · intro a ha b hb
    rw [bio_identify_eq] at ha hb
    exact hassess a ha b hb
  · intro a ha b hb heq
    rw [compat_identify_eq] at ha hb
    simp only [List.mem_filter] at ha hb
    have hab : a = b := List.inj_on_of_nodup_map h ha.1 hb.1 heq
    have hsa : 75 ≤ a.score := by simpa using ha.2
    have hsb : b.score < 50 := by simpa using hb.2
    rw [hab] at hsa
    omega

/-- Witness for C8: the non-overlap property on the two-score list
`[("a", 80), ("b", 60)]`. -/
theorem classification_no_overlap_witness :
    (([⟨"a", 80⟩, ⟨"b", 60⟩] : List DimScore).map DimScore.dimension_id).Nodup
    ∧ ((∀ a2 ∈ (Assessments.identify_strengths_and_challenges
          [⟨"a", 80⟩, ⟨"b", 60⟩]).1,
        ∀ b2 ∈ (Assessments.identify_strengths_and_challenges
          [⟨"a", 80⟩, ⟨"b", 60⟩]).2,
          a2.dimension_id ≠ b2.dimension_id)
      ∧ (∀ a2 ∈ (Biometrics.identify_strengths_and_challenges
          [⟨"a", 80⟩, ⟨"b", 60⟩]).1,
        ∀ b2 ∈ (Biometrics.identify_strengths_and_challenges
          [⟨"a", 80⟩, ⟨"b", 60⟩]).2,
          a2.dimension_id ≠ b2.dimension_id)
      ∧ (∀ a2 ∈ (CompatibilityEndpoint.identify_strengths_and_challenges
          [⟨"a", 80⟩, ⟨"b", 60⟩]).1,
        ∀ b2 ∈ (CompatibilityEndpoint.identify_strengths_and_challenges
          [⟨"a", 80⟩, ⟨"b", 60⟩]).2,
          a2.dimension_id ≠ b2.dimension_id)) :=
  ⟨by decide, classification_no_overlap [⟨"a", 80⟩, ⟨"b", 60⟩] (by decide)⟩

end CompatMatrix
